import Mathlib

/-!
Shallow embedding of the eztel-writer telemetry segmentation core.

Telemetry samples are Python dictionaries in the source; here each
semantic channel is one `Option` field holding the first present,
parseable value among the key variants the source probes in order
(for example "LapDistance [m]" then "lap_distance"); `none` models a
missing or unparseable field.  Machine floats are modelled as exact
rationals.  Python's float("inf") sentinel for the fastest-lap running
minimum is modelled as `Option ℚ` with `none` standing for infinity.
-/

/-- Session states of the session manager (`SessionState` enum). -/
inductive SessionState where
  | IDLE
  | DETECTED
  | LOGGING
  | PAUSED
  | ERROR
deriving DecidableEq

/-- Stop reasons reported through the events dict key "session_stopped". -/
inductive StopReason where
  | lap_distance_reset
  | idle_timeout
deriving DecidableEq

/-- Raw telemetry sample for the local player: the dictionary fields the
session manager and normalizer read, one `Option` field per channel. -/
structure Telemetry where
  lap : Option Int := none
  lap_distance : Option ℚ := none
  speed : Option ℚ := none
  track_length : Option ℚ := none
  sector : Option Int := none
  sector_boundaries : Option (List ℚ) := none
  engine_rpm : Option ℚ := none
  throttle : Option ℚ := none
  brake : Option ℚ := none
  steering : Option ℚ := none
  gear : Option ℚ := none
  position_x : Option ℚ := none
  position_z : Option ℚ := none
deriving DecidableEq

/-- Normalized sample produced by `SampleNormalizer.normalize`, keyed by
the canonical MVP headers.  `lap_time` models the "LapTime [s]" key: it
is absent (`none`) in the normalizer's output and only set afterwards by
`SessionManager.assign_lap_time`. -/
structure NormSample where
  lap_distance : ℚ
  sector : Int
  speed : ℚ
  engine_revs : ℚ
  throttle_pct : ℚ
  brake_pct : ℚ
  steer_pct : ℚ
  gear : Int
  pos_x : Option ℚ
  pos_z : Option ℚ
  lap_time : Option ℚ
deriving DecidableEq

/-- Python's round(): round half to even, as called by int(round(x)). -/
def pythonRound (q : ℚ) : Int :=
  let f := ⌊q⌋
  let r := q - f
  if r < 1/2 then f
  else if 1/2 < r then f + 1
  else if 2 ∣ f then f else f + 1

namespace SampleNormalizer

/-- Percent-like channel coercion (`_percent_value`): magnitudes within
[-1.5, 1.5] are fractions scaled by 100, then clamped to [0, 100]. -/
def percent_value (v : Option ℚ) : ℚ :=
  match v with
  | none => 0
  | some n =>
    let n := if -1.5 ≤ n ∧ n ≤ 1.5 then n * 100 else n
    max 0 (min 100 n)

/-- Steering channel coercion (`_steering_value`): magnitudes within
[-2, 2] are ratios scaled by 100, then clamped to [-100, 100]. -/
def steering_value (v : Option ℚ) : ℚ :=
  match v with
  | none => 0
  | some n =>
    let n := if -2 ≤ n ∧ n ≤ 2 then n * 100 else n
    max (-100) (min 100 n)

/-- Integer channel coercion (`_to_int`): int(round(float(v))) with a
default when every candidate is missing. -/
def to_int (v : Option ℚ) (default : Int) : Int :=
  match v with
  | some q => pythonRound q
  | none => default

/-- Sector index resolution (`_resolve_sector`): explicit sector field
first (1-based values decremented, floored at 0), then the explicit
sector-boundary list (first boundary strictly greater than the lap
distance wins, else the last sector), then equal three-way division of
the track length, else 0. -/
def resolve_sector (t : Telemetry) (lap_distance : ℚ) : Int :=
  match t.sector with
  | some s => max 0 (if 0 < s then s - 1 else s)
  | none =>
    match t.sector_boundaries with
    | some bs =>
      if bs ≠ [] then
        let i := bs.findIdx (fun b => decide (lap_distance < b))
        if i < bs.length then (i : Int) else (bs.length : Int) - 1
      else
        0
    | none =>
      let track_length := t.track_length.getD 0
      if 0 < track_length then
        let progress := max 0 (min 0.9999 (lap_distance / track_length))
        ⌊progress * 3⌋
      else 0

/-- The pure normalizer transform (`SampleNormalizer.normalize`). -/
def normalize (t : Telemetry) : NormSample :=
  let lap_distance := t.lap_distance.getD 0
  { lap_distance := lap_distance
    sector := resolve_sector t lap_distance
    speed := t.speed.getD 0
    engine_revs := t.engine_rpm.getD 0
    throttle_pct := percent_value t.throttle
    brake_pct := percent_value t.brake
    steer_pct := steering_value t.steering
    gear := to_int t.gear 0
    pos_x := t.position_x
    pos_z := t.position_z
    lap_time := none }

end SampleNormalizer

/-- Telemetry projection used by `detect_sector_boundaries`: lap distance
and per-sector cumulative split times, with missing or None values read
as 0.0 (the source does get(key, 0.0) or 0.0). -/
structure SectorSample where
  lap_distance : ℚ := 0
  sector1_time : ℚ := 0
  sector2_time : ℚ := 0
  sector3_time : ℚ := 0
deriving DecidableEq

/-- Loop state of `detect_sector_boundaries`: boundaries recorded so far
plus the previous sample's three split values. -/
structure DetectState where
  boundaries : List ℚ
  prev1 : ℚ
  prev2 : ℚ
  prev3 : ℚ
deriving DecidableEq

/-- One iteration of the `detect_sector_boundaries` loop body: a boundary
is appended when a split transitions from zero (previous sample) to
positive (this sample); the three checks form an if/elif chain. -/
def detectSectorStep (st : DetectState) (s : SectorSample) : DetectState :=
  let bs :=
    if st.prev1 = 0 ∧ 0 < s.sector1_time then st.boundaries ++ [s.lap_distance]
    else if st.prev2 = 0 ∧ 0 < s.sector2_time then st.boundaries ++ [s.lap_distance]
    else if st.prev3 = 0 ∧ 0 < s.sector3_time then st.boundaries ++ [s.lap_distance]
    else st.boundaries
  { boundaries := bs
    prev1 := s.sector1_time
    prev2 := s.sector2_time
    prev3 := s.sector3_time }

/-- The sorted(samples, key=lap_distance) step (Python's sort is stable,
as is mergeSort). -/
def sortByLapDistance (samples : List SectorSample) : List SectorSample :=
  samples.mergeSort (fun a b => a.lap_distance ≤ b.lap_distance)

/-- Sector boundary detection (`detect_sector_boundaries`): walk the
distance-sorted samples recording zero-to-positive split transitions;
fall back to three equal sectors when nothing was detected, and append
the track length when the last boundary falls short of 95% of it. -/
def detect_sector_boundaries (samples : List SectorSample) (track_length : ℚ) :
    List ℚ × Nat :=
  let sorted := sortByLapDistance samples
  let boundaries := (sorted.foldl detectSectorStep ⟨[], 0, 0, 0⟩).boundaries
  if boundaries = [] ∧ 0 < track_length then
    ([track_length / 3, track_length * 2 / 3, track_length], 3)
  else
    let appendFinal : Bool :=
      match boundaries.getLast? with
      | none => true
      | some b => decide (b < track_length * 0.95)
    let boundaries :=
      if 0 < track_length ∧ appendFinal = true then boundaries ++ [track_length]
      else boundaries
    (boundaries, if boundaries = [] then 3 else boundaries.length)

/-- State owned by `SessionManager` (its mutable attributes). -/
structure SessionManager where
  state : SessionState
  current_lap : Int
  lap_samples : List NormSample
  idle_timeout : ℚ
  min_speed_kmh : ℚ
  lap_reset_tolerance : ℚ
  last_progress_time : Option ℚ
  last_lap_distance : Option ℚ
  lap_start_timestamp : Option ℚ
  last_lap_time : ℚ
  track_length : ℚ
deriving DecidableEq

/-- The `SessionManager.__init__` constructor: configuration values are
floored at 0, everything else starts empty. -/
def mkSessionManager (idle_timeout min_speed_kmh lap_reset_tolerance : ℚ) :
    SessionManager :=
  { state := SessionState.IDLE
    current_lap := 0
    lap_samples := []
    idle_timeout := max 0 idle_timeout
    min_speed_kmh := max 0 min_speed_kmh
    lap_reset_tolerance := max 0 lap_reset_tolerance
    last_progress_time := none
    last_lap_distance := none
    lap_start_timestamp := none
    last_lap_time := 0
    track_length := 0 }

/-- Events dictionary returned by `SessionManager.update`: the
"lap_completed" key and the single "session_stopped" slot (a dict key
holds at most one reason). -/
structure SMEvents where
  lap_completed : Bool
  session_stopped : Option StopReason
deriving DecidableEq

namespace SessionManager

/-- Running-max track length (`_update_track_length`): an explicit
track-length field or the largest observed lap distance, with Python
truthiness (0.0 is falsy) on the candidates. -/
def update_track_length (s : SessionManager) (t : Telemetry) : SessionManager :=
  let s :=
    match t.track_length with
    | some c => if c ≠ 0 ∧ s.track_length < c then { s with track_length := c } else s
    | none => s
  match t.lap_distance with
  | some d => if d ≠ 0 ∧ s.track_length < d then { s with track_length := d } else s
  | none => s

/-- First block of `_detect_stop_conditions`: initialize the progress
timer on the very first timestamped sample. -/
def dscInitProgress (s : SessionManager) (timestamp : Option ℚ) : SessionManager :=
  if timestamp.isSome ∧ s.last_progress_time = none then
    { s with last_progress_time := timestamp }
  else s

/-- Teleport test of `_detect_stop_conditions`: the current lap distance
plus the tolerance is less than the last recorded lap distance. -/
def dscResetDetected (s : SessionManager) (t : Telemetry) : Bool :=
  match t.lap_distance, s.last_lap_distance with
  | some d, some prev => decide (d + s.lap_reset_tolerance < prev)
  | _, _ => false

/-- Forward-progress block of `_detect_stop_conditions`: reset the
progress timer on a forward-distance increase greater than 0.1 m (or on
the first distance ever seen), and record the last lap distance. -/
def dscTrackProgress (s : SessionManager) (t : Telemetry)
    (timestamp : Option ℚ) : SessionManager :=
  match t.lap_distance with
  | some d =>
    let progressed : Bool :=
      match s.last_lap_distance with
      | none => true
      | some prev => decide (prev + 0.1 < d)
    let s1 :=
      if progressed = true ∧ timestamp.isSome then
        { s with last_progress_time := timestamp }
      else s
    { s1 with last_lap_distance := some d }
  | none => s

/-- Speed block of `_detect_stop_conditions`: a sample at or above the
minimum speed resets the progress timer. -/
def dscSpeedProgress (s : SessionManager) (t : Telemetry)
    (timestamp : Option ℚ) : SessionManager :=
  match t.speed, timestamp with
  | some v, some ts =>
    if s.min_speed_kmh ≤ v then { s with last_progress_time := some ts } else s
  | _, _ => s

/-- Idle test of `_detect_stop_conditions`: fires only when configured
(timeout > 0) and the progress timer has lagged for at least that long. -/
def dscIdleDetected (s : SessionManager) (timestamp : Option ℚ) : Bool :=
  match timestamp, s.last_progress_time with
  | some ts, some pt =>
    decide (0 < s.idle_timeout) && decide (s.idle_timeout ≤ ts - pt)
  | _, _ => false

/-- Stop-condition detection (`_detect_stop_conditions`): backward
lap-distance jumps beyond the tolerance stop immediately; otherwise an
idle timeout fires when no forward progress (> 0.1 m) and no
at-or-above-minimum speed has been seen for the configured duration.
At most one reason fits in the dict slot and the teleport has priority;
after a stop fires the progress timer resets to the current timestamp.
Returns the updated state and the single "session_stopped" slot. -/
def detect_stop_conditions (s : SessionManager) (t : Telemetry)
    (timestamp : Option ℚ) : SessionManager × Option StopReason :=
  let s := dscInitProgress s timestamp
  let reset := dscResetDetected s t
  let s := dscTrackProgress s t timestamp
  let s := dscSpeedProgress s t timestamp
  let idle := dscIdleDetected s timestamp
  let stopped : Option StopReason :=
    if reset = true then some StopReason.lap_distance_reset
    else if idle = true then some StopReason.idle_timeout
    else none
  let s :=
    if stopped.isSome ∧ timestamp.isSome then
      { s with last_progress_time := timestamp }
    else s
  (s, stopped)

/-- The `SessionManager.update` operation: lap-change detection, running
track length, stop conditions. -/
def update (s : SessionManager) (t : Telemetry) (timestamp : Option ℚ) :
    SessionManager × SMEvents :=
  let new_lap := t.lap.getD 0
  let lap_completed : Bool :=
    decide (new_lap ≠ s.current_lap) && decide (0 < s.current_lap)
  let s :=
    if lap_completed = true ∧ timestamp.isSome then
      { s with lap_start_timestamp := timestamp, last_lap_time := 0 }
    else s
  let s := { s with current_lap := new_lap }
  let s :=
    if 0 < s.current_lap ∧ s.lap_start_timestamp = none ∧ timestamp.isSome then
      { s with lap_start_timestamp := timestamp }
    else s
  let s := s.update_track_length t
  let r := s.detect_stop_conditions t timestamp
  (r.1, { lap_completed := lap_completed, session_stopped := r.2 })

/-- Lap-time candidate selection (`_select_time_value`): prefer the
timestamp-derived duration when it exceeds a valid (nonnegative)
reported time by more than the 0.02 s slack, otherwise the larger of
the two; never let the result drop below the previously assigned time. -/
def select_time_value (s : SessionManager)
    (reported_time computed_time : Option ℚ) : ℚ :=
  let valid_reported : Option ℚ :=
    match reported_time with
    | some r => if 0 ≤ r then some r else none
    | none => none
  let chosen : ℚ :=
    match computed_time with
    | some c =>
      match valid_reported with
      | none => c
      | some r => if r < c - 0.02 then c else max r c
    | none =>
      match valid_reported with
      | some r => r
      | none => s.last_lap_time
  if chosen < s.last_lap_time then s.last_lap_time else chosen

/-- Lap-time assignment (`_assign_lap_time`): derive the in-lap duration
from the wall clock, select a monotone lap time and store it both on the
sample (the "LapTime [s]" key) and as the running last assigned time. -/
def assign_lap_time (s : SessionManager) (normalized : NormSample)
    (timestamp : Option ℚ) : SessionManager × NormSample :=
  let s :=
    if timestamp.isSome ∧ s.lap_start_timestamp = none then
      { s with lap_start_timestamp := timestamp }
    else s
  let reported_time := normalized.lap_time
  let computed_time : Option ℚ :=
    match timestamp, s.lap_start_timestamp with
    | some ts, some start => some (max 0 (ts - start))
    | _, _ => none
  let lap_time := s.select_time_value reported_time computed_time
  ({ s with last_lap_time := lap_time },
   { normalized with lap_time := some lap_time })

/-- Duplicate suppression (`_is_duplicate_sample`): a sample is dropped
only when its fully-normalized payload equals the buffer's last entry. -/
def is_duplicate_sample (s : SessionManager) (normalized : NormSample) : Bool :=
  match s.lap_samples.getLast? with
  | none => false
  | some last => decide (normalized = last)

/-- The `SessionManager.add_sample` operation: inject the running track
length, normalize, assign the lap time, append unless duplicate. -/
def add_sample (s : SessionManager) (t : Telemetry) (timestamp : Option ℚ) :
    SessionManager :=
  let t :=
    if t.track_length = none ∧ 0 < s.track_length then
      { t with track_length := some s.track_length }
    else t
  let r := s.assign_lap_time (SampleNormalizer.normalize t) timestamp
  if r.1.is_duplicate_sample r.2 then r.1
  else { r.1 with lap_samples := r.1.lap_samples ++ [r.2] }

/-- Clears the lap buffer and resets the last assigned lap time. -/
def clear_lap_buffer (s : SessionManager) : SessionManager :=
  { s with lap_samples := [], last_lap_time := 0 }

end SessionManager

/-- Lap summary dictionary built by `SessionManager.get_lap_summary`;
an empty buffer yields the empty dict, modelled as `none`. -/
structure LapSummary where
  lap : Int
  lap_time : ℚ
  samples_count : Nat
  lap_distance : ℚ
deriving DecidableEq

/-- The `SessionManager.get_lap_summary` operation. -/
def SessionManager.get_lap_summary (s : SessionManager) : Option LapSummary :=
  match s.lap_samples.getLast? with
  | none => none
  | some last =>
    some { lap := s.current_lap
           lap_time := last.lap_time.getD 0
           samples_count := s.lap_samples.length
           lap_distance := last.lap_distance }

/-- Raw telemetry sample for one opponent: the dictionary fields
`OpponentTracker.update_opponent` reads. -/
structure OppSample where
  driver_name : Option String := none
  control : Option Int := none
  lap : Option Int := none
  lap_distance : Option ℚ := none
  lap_time : Option ℚ := none
  last_lap_time : Option ℚ := none
  speed : Option ℚ := none
  position : Option Int := none
  car_name : Option String := none
  car_model : Option String := none
  team_name : Option String := none
  manufacturer : Option String := none
  car_class : Option String := none
deriving DecidableEq

/-- Per-driver opponent state: current lap number, sample buffer, the
fastest lap time seen (`none` models the initial float infinity) and the
lap-start timestamp. -/
structure OpponentState where
  current_lap : Int
  samples : List OppSample
  fastest_lap_time : Option ℚ
  lap_start_timestamp : Option ℚ
deriving DecidableEq

/-- Record for a completed opponent lap (`OpponentLapData`). -/
structure OpponentLapData where
  driver_name : String
  lap_number : Int
  lap_time : ℚ
  samples : List OppSample
  is_fastest : Bool
  position : Option Int
  car_name : Option String
  car_model : Option String
  team_name : Option String
  manufacturer : Option String
  car_class : Option String
deriving DecidableEq

/-- The `OpponentTracker` object: driver-name keyed state mapping plus
the two tracking configuration flags. -/
structure OpponentTracker where
  opponents : List (String × OpponentState)
  track_remote_only : Bool
  track_ai : Bool
deriving DecidableEq

/-- Dictionary lookup on the driver-name keyed mapping. -/
def lookupOpponent : List (String × OpponentState) → String → Option OpponentState
  | [], _ => none
  | (k, v) :: rest, name =>
    if k = name then some v else lookupOpponent rest name

/-- Dictionary write on the driver-name keyed mapping: update in place,
or insert at the end on first sighting (Python dict insertion order). -/
def setOpponent : List (String × OpponentState) → String → OpponentState →
    List (String × OpponentState)
  | [], name, st => [(name, st)]
  | (k, v) :: rest, name, st =>
    if k = name then (name, st) :: rest else (k, v) :: setOpponent rest name st

/-- The `OpponentTracker.__init__` constructor with its defaults. -/
def mkOpponentTracker (track_remote_only : Bool := true)
    (track_ai : Bool := false) : OpponentTracker :=
  { opponents := [], track_remote_only := track_remote_only, track_ai := track_ai }

namespace OpponentTracker

/-- Control-type filter (`_should_track`): never the local player (0),
nobody (-1) or replay (3); remote players (2) always; AI (1) only when
enabled. -/
def should_track (tr : OpponentTracker) (control : Int) : Bool :=
  if control = -1 ∨ control = 0 ∨ control = 3 then false
  else if control = 2 then true
  else if control = 1 then tr.track_ai
  else false

/-- The `OpponentTracker.update_opponent` operation: fastest-lap-only
emission on lap-number increases, out-lap early return, and raw sample
buffering. -/
def update_opponent (tr : OpponentTracker) (t : OppSample)
    (timestamp : Option ℚ) : OpponentTracker × List OpponentLapData :=
  match t.driver_name with
  | none => (tr, [])
  | some name =>
    if name = "" then (tr, [])
    else if tr.should_track (t.control.getD (-1)) = false then (tr, [])
    else
      -- First sighting initializes the entry; afterwards `opponent` is
      -- the stored state for this driver.
      let opponent : OpponentState :=
        (lookupOpponent tr.opponents name).getD
          { current_lap := 0
            samples := []
            fastest_lap_time := none
            lap_start_timestamp := timestamp }
      let current_lap := t.lap.getD 0
      if opponent.current_lap < current_lap ∧ 0 < opponent.current_lap then
        let lap_time := t.last_lap_time.getD 0
        if lap_time ≤ 0 then
          -- Out-lap / invalid: clear the buffer and keep tracking.
          let opponent :=
            { opponent with
                samples := []
                lap_start_timestamp := timestamp
                current_lap := current_lap }
          ({ tr with opponents := setOpponent tr.opponents name opponent }, [])
        else
          let is_fastest : Bool :=
            match opponent.fastest_lap_time with
            | none => true
            | some f => decide (lap_time < f)
          let opponent1 :=
            if is_fastest = true then
              { opponent with fastest_lap_time := some lap_time }
            else opponent
          let emitted : List OpponentLapData :=
            if opponent1.fastest_lap_time = none ∨ is_fastest = true then
              [{ driver_name := name
                 lap_number := opponent.current_lap
                 lap_time := lap_time
                 samples := opponent.samples
                 is_fastest := true
                 position := t.position
                 car_name := t.car_name
                 car_model := t.car_model
                 team_name := t.team_name
                 manufacturer := t.manufacturer
                 car_class := t.car_class }]
            else []
          let opponent2 :=
            { opponent1 with
                samples := []
                lap_start_timestamp := timestamp
                current_lap := current_lap }
          let opponent3 :=
            if 0 < current_lap then
              { opponent2 with samples := opponent2.samples ++ [t] }
            else opponent2
          ({ tr with opponents := setOpponent tr.opponents name opponent3 },
           emitted)
      else
        let opponent := { opponent with current_lap := current_lap }
        let opponent :=
          if 0 < current_lap then
            { opponent with samples := opponent.samples ++ [t] }
          else opponent
        ({ tr with opponents := setOpponent tr.opponents name opponent }, [])

/-- Number of distinct tracked drivers (`get_opponent_count`). -/
def get_opponent_count (tr : OpponentTracker) : Nat :=
  tr.opponents.length

/-- Clears all opponent tracking state (`reset`). -/
def reset (tr : OpponentTracker) : OpponentTracker :=
  { tr with opponents := [] }

end OpponentTracker

/-- Drives a tracker through a sequence of opponent samples, collecting
every emitted completed-lap record in order. -/
def runOpponentSamples (tr : OpponentTracker)
    (inputs : List (OppSample × Option ℚ)) :
    OpponentTracker × List OpponentLapData :=
  inputs.foldl
    (fun acc p =>
      let r := acc.1.update_opponent p.1 p.2
      (r.1, acc.2 ++ r.2))
    (tr, [])

/-- The `TelemetryLoop` object: the session manager (which carries the
session state), control flags and the loop's raw minimum-speed copy.
The session-state enum lives inside the session manager, as in the
source (`self.session_manager.state`). -/
structure TelemetryLoop where
  session_manager : SessionManager
  current_session_id : Option String
  min_speed_kmh : ℚ
  running : Bool
  paused : Bool
  suspend_logging : Bool
deriving DecidableEq

/-- Per-tick status dictionary produced by `TelemetryLoop.run_once`. -/
structure LoopStatus where
  state : SessionState
  process_detected : Bool
  telemetry_available : Bool
  lap : Int
  samples_buffered : Nat
  lap_completed : Bool
  session_stopped : Bool
  stop_reason : Option StopReason
deriving DecidableEq

/-- One (lap data, lap summary) pair delivered to the export
collaborator by `_flush_lap`'s callback. -/
structure FlushRecord where
  lap_data : List NormSample
  summary : LapSummary
  stop_reason : Option StopReason
  lap_completed : Bool
deriving DecidableEq

/-- The `TelemetryLoop.__init__` constructor (components only; the
loop's `_min_speed_kmh` copy is the raw configured value, unclamped). -/
def mkTelemetryLoop (idle_timeout min_speed_kmh lap_reset_tolerance : ℚ) :
    TelemetryLoop :=
  { session_manager := mkSessionManager idle_timeout min_speed_kmh lap_reset_tolerance
    current_session_id := none
    min_speed_kmh := min_speed_kmh
    running := false
    paused := false
    suspend_logging := false }

namespace TelemetryLoop

/-- Forward-activity test (`_sample_indicates_active`): true when the
sample carries a speed at or above the loop's configured minimum. -/
def sample_indicates_active (loop : TelemetryLoop) (t : Telemetry) : Bool :=
  match t.speed with
  | some v => decide (loop.min_speed_kmh ≤ v)
  | none => false

/-- Buffer flush (`_flush_lap`): emit the (lap data, summary) pair with
the completion flag and optional stop reason, then clear the buffer; an
empty buffer emits nothing. -/
def flush_lap (loop : TelemetryLoop) (reason : Option StopReason) :
    TelemetryLoop × Option FlushRecord :=
  let lap_data := loop.session_manager.lap_samples
  match loop.session_manager.get_lap_summary with
  | none =>
    ({ loop with session_manager := loop.session_manager.clear_lap_buffer }, none)
  | some summary =>
    ({ loop with session_manager := loop.session_manager.clear_lap_buffer },
     some { lap_data := lap_data
            summary := summary
            stop_reason := reason
            lap_completed := reason.isNone })

/-- One poll tick (`TelemetryLoop.run_once`).  The external collaborators
are passed as inputs: process presence, telemetry availability, the
sample the reader would return, the wall clock, and the session id that
`generate_session_id` would mint.  The exception path (state set to
ERROR when the reader raises) is outside this model: reads here are
total.  Returns the new loop state, the status dictionary (`none` when
the loop is not running) and the flush records delivered downstream. -/
def run_once (loop : TelemetryLoop) (process_running telemetry_available : Bool)
    (telemetry : Telemetry) (now : ℚ) (fresh_session_id : String) :
    TelemetryLoop × Option LoopStatus × List FlushRecord :=
  if loop.running = false then (loop, none, [])
  else
    let status : LoopStatus :=
      { state := loop.session_manager.state
        process_detected := process_running
        telemetry_available := false
        lap := loop.session_manager.current_lap
        samples_buffered := loop.session_manager.lap_samples.length
        lap_completed := false
        session_stopped := false
        stop_reason := none }
    if process_running = false then
      let sm :=
        if loop.session_manager.state ≠ SessionState.IDLE then
          { loop.session_manager.clear_lap_buffer with state := SessionState.IDLE }
        else loop.session_manager
      ({ loop with session_manager := sm, suspend_logging := false },
       some status, [])
    else
      let loop :=
        if loop.session_manager.state = SessionState.IDLE then
          { loop with
              session_manager :=
                { loop.session_manager with state := SessionState.DETECTED } }
        else loop
      if loop.paused = true then (loop, some status, [])
      else if telemetry_available = false then
        ({ loop with suspend_logging := false }, some status, [])
      else
        let status := { status with telemetry_available := true }
        let r := loop.session_manager.update telemetry (some now)
        let events := r.2
        let loop := { loop with session_manager := r.1 }
        let (loop, status, flushes) :=
          if events.lap_completed = true then
            let f := loop.flush_lap none
            (f.1, { status with lap_completed := true }, f.2.toList)
          else (loop, status, ([] : List FlushRecord))
        let (loop, status, flushes) :=
          match events.session_stopped with
          | some reason =>
            let f := loop.flush_lap (some reason)
            let loop := { f.1 with suspend_logging := true }
            let loop :=
              if loop.session_manager.state = SessionState.LOGGING then
                { loop with
                    session_manager :=
                      { loop.session_manager with state := SessionState.DETECTED } }
              else loop
            (loop,
             { status with session_stopped := true, stop_reason := some reason },
             flushes ++ f.2.toList)
          | none => (loop, status, flushes)
        if loop.suspend_logging = true ∧
            loop.sample_indicates_active telemetry = false then
          (loop,
           some { status with
                    state := loop.session_manager.state
                    lap := loop.session_manager.current_lap
                    samples_buffered := loop.session_manager.lap_samples.length },
           flushes)
        else
          let loop :=
            if loop.suspend_logging = true then
              { loop with suspend_logging := false }
            else loop
          let loop :=
            if loop.session_manager.state = SessionState.DETECTED then
              { loop with
                  session_manager :=
                    { loop.session_manager with state := SessionState.LOGGING }
                  current_session_id := some fresh_session_id }
            else loop
          let loop :=
            { loop with
                session_manager :=
                  loop.session_manager.add_sample telemetry none }
          (loop,
           some { status with
                    state := loop.session_manager.state
                    lap := loop.session_manager.current_lap
                    samples_buffered := loop.session_manager.lap_samples.length },
           flushes)

end TelemetryLoop

/-- Opponent sample for driver "A" (a remote player) carrying a lap
number and the source's last-completed-lap time. -/
def oppSampleA (lap_number : Int) (last_lap : ℚ) : OppSample :=
  { driver_name := some "A"
    control := some 2
    lap := some lap_number
    last_lap_time := some last_lap }

/-- Monotonicity invariant of a session manager's lap buffer: buffered
lap times are nondecreasing and the last one is at most the running
last assigned lap time. -/
def lapTimesMonotone (s : SessionManager) : Prop :=
  List.Chain' (fun a b => a.lap_time.getD 0 ≤ b.lap_time.getD 0) s.lap_samples ∧
  ∀ last ∈ s.lap_samples.getLast?, last.lap_time.getD 0 ≤ s.last_lap_time

/-- Number of sectors whose trigger is armed (previous split value is
exactly zero) in a detector state. -/
def weight (st : DetectState) : Nat :=
  (if st.prev1 = 0 then 1 else 0) + (if st.prev2 = 0 then 1 else 0) +
    (if st.prev3 = 0 then 1 else 0)

/-- A split channel never falls back to zero along the list: once
positive at a sample, it is positive at the next sample. -/
def sticky (f : SectorSample → ℚ) (l : List SectorSample) : Prop :=
  List.Chain' (fun a b => 0 < f a → 0 < f b) l

/-- Samples where the sector-1 split is reported, drops back to zero,
and is reported again at a later distance. -/
def noisySectorSamples : List SectorSample :=
  [⟨100, 5, 0, 0⟩, ⟨200, 0, 0, 0⟩, ⟨300, 5, 0, 0⟩]

/-- A loop state mid-session with logging suspended after a stop. -/
def suspendedLoop : TelemetryLoop :=
  { session_manager :=
      { mkSessionManager 5 1 5 with state := SessionState.LOGGING }
    current_session_id := some "20240101000000000000"
    min_speed_kmh := 1
    running := true
    paused := false
    suspend_logging := true }

/-! Helper lemmas about the embedded operations. -/

namespace SessionManager

lemma dscInitProgress_fields (s : SessionManager) (ts : Option ℚ) :
    (s.dscInitProgress ts).last_lap_distance = s.last_lap_distance ∧
    (s.dscInitProgress ts).lap_reset_tolerance = s.lap_reset_tolerance ∧
    (s.dscInitProgress ts).min_speed_kmh = s.min_speed_kmh ∧
    (s.dscInitProgress ts).idle_timeout = s.idle_timeout := by
  unfold dscInitProgress
  refine ⟨?_, ?_, ?_, ?_⟩ <;> ((repeat' split) <;> rfl)

lemma dscTrackProgress_fields (s : SessionManager) (t : Telemetry) (ts : Option ℚ) :
    (s.dscTrackProgress t ts).lap_reset_tolerance = s.lap_reset_tolerance ∧
    (s.dscTrackProgress t ts).min_speed_kmh = s.min_speed_kmh ∧
    (s.dscTrackProgress t ts).idle_timeout = s.idle_timeout := by
  unfold dscTrackProgress
  refine ⟨?_, ?_, ?_⟩ <;> (dsimp only; (repeat' split) <;> rfl)

lemma dscSpeedProgress_fields (s : SessionManager) (t : Telemetry) (ts : Option ℚ) :
    (s.dscSpeedProgress t ts).lap_reset_tolerance = s.lap_reset_tolerance ∧
    (s.dscSpeedProgress t ts).min_speed_kmh = s.min_speed_kmh ∧
    (s.dscSpeedProgress t ts).idle_timeout = s.idle_timeout := by
  unfold dscSpeedProgress
  refine ⟨?_, ?_, ?_⟩ <;> ((repeat' split) <;> rfl)

lemma dscTrackProgress_sets (s : SessionManager) (t : Telemetry) (τ d prev : ℚ)
    (ht : t.lap_distance = some d) (hs : s.last_lap_distance = some prev)
    (hlt : prev + 0.1 < d) :
    (s.dscTrackProgress t (some τ)).last_progress_time = some τ := by
  unfold dscTrackProgress
  simp [ht, hs, hlt]

lemma dscSpeedProgress_lpt (s : SessionManager) (t : Telemetry) (τ : ℚ) :
    (s.dscSpeedProgress t (some τ)).last_progress_time = s.last_progress_time ∨
    (s.dscSpeedProgress t (some τ)).last_progress_time = some τ := by
  unfold dscSpeedProgress
  (repeat' split) <;> simp_all

lemma dscSpeedProgress_sets (s : SessionManager) (t : Telemetry) (τ v : ℚ)
    (ht : t.speed = some v) (hv : s.min_speed_kmh ≤ v) :
    (s.dscSpeedProgress t (some τ)).last_progress_time = some τ := by
  unfold dscSpeedProgress
  simp [ht, hv]

lemma detect_progress_distance (s : SessionManager) (t : Telemetry)
    (τ d prev : ℚ) (ht : t.lap_distance = some d)
    (hs : s.last_lap_distance = some prev) (hlt : prev + 0.1 < d) :
    (s.detect_stop_conditions t (some τ)).1.last_progress_time = some τ := by
  unfold detect_stop_conditions
  dsimp only
  have hs' : (s.dscInitProgress (some τ)).last_lap_distance = some prev :=
    (dscInitProgress_fields s (some τ)).1.trans hs
  have htrack := dscTrackProgress_sets (s.dscInitProgress (some τ)) t τ d prev ht hs' hlt
  rcases dscSpeedProgress_lpt ((s.dscInitProgress (some τ)).dscTrackProgress t (some τ)) t τ with h | h <;>
    (repeat' split) <;> simp_all

lemma detect_progress_speed (s : SessionManager) (t : Telemetry)
    (τ v : ℚ) (ht : t.speed = some v) (hv : s.min_speed_kmh ≤ v) :
    (s.detect_stop_conditions t (some τ)).1.last_progress_time = some τ := by
  unfold detect_stop_conditions
  dsimp only
  have hmin : ((s.dscInitProgress (some τ)).dscTrackProgress t (some τ)).min_speed_kmh = s.min_speed_kmh :=
    (dscTrackProgress_fields _ t (some τ)).2.1.trans (dscInitProgress_fields s (some τ)).2.2.1
  have hspeed := dscSpeedProgress_sets
    ((s.dscInitProgress (some τ)).dscTrackProgress t (some τ)) t τ v ht (by rw [hmin]; exact hv)
  (repeat' split) <;> simp_all

lemma detect_no_idle_when_disabled (s : SessionManager) (t : Telemetry)
    (ts : Option ℚ) (hidle : s.idle_timeout ≤ 0) :
    (s.detect_stop_conditions t ts).2 ≠ some StopReason.idle_timeout := by
  unfold detect_stop_conditions
  dsimp only
  have hidle' : (((s.dscInitProgress ts).dscTrackProgress t ts).dscSpeedProgress t ts).idle_timeout = s.idle_timeout :=
    ((dscSpeedProgress_fields _ t ts).2.2.trans
      ((dscTrackProgress_fields _ t ts).2.2.trans (dscInitProgress_fields s ts).2.2.2))
  have h0 : (((s.dscInitProgress ts).dscTrackProgress t ts).dscSpeedProgress t ts).dscIdleDetected ts = false := by
    unfold dscIdleDetected
    (repeat' split) <;> simp_all
  (repeat' split) <;> simp_all

lemma detect_reset_fires (s : SessionManager) (t : Telemetry) (ts : Option ℚ)
    (d prev : ℚ) (ht : t.lap_distance = some d)
    (hs : s.last_lap_distance = some prev)
    (hjump : d + s.lap_reset_tolerance < prev) :
    (s.detect_stop_conditions t ts).2 = some StopReason.lap_distance_reset := by
  unfold detect_stop_conditions
  dsimp only
  have hs' : (s.dscInitProgress ts).last_lap_distance = some prev :=
    (dscInitProgress_fields s ts).1.trans hs
  have htol : (s.dscInitProgress ts).lap_reset_tolerance = s.lap_reset_tolerance :=
    (dscInitProgress_fields s ts).2.1
  have hreset : (s.dscInitProgress ts).dscResetDetected t = true := by
    unfold dscResetDetected
    rw [ht, hs', htol]
    simpa using hjump
  simp [hreset]

lemma detect_fields (s : SessionManager) (t : Telemetry) (ts : Option ℚ) :
    (s.detect_stop_conditions t ts).1.idle_timeout = s.idle_timeout := by
  unfold detect_stop_conditions
  dsimp only
  have h := (dscSpeedProgress_fields ((s.dscInitProgress ts).dscTrackProgress t ts) t ts).2.2.trans
    ((dscTrackProgress_fields (s.dscInitProgress ts) t ts).2.2.trans
      (dscInitProgress_fields s ts).2.2.2)
  (repeat' split) <;> simp_all

lemma update_track_length_fields (s : SessionManager) (t : Telemetry) :
    (s.update_track_length t).last_progress_time = s.last_progress_time ∧
    (s.update_track_length t).last_lap_distance = s.last_lap_distance ∧
    (s.update_track_length t).lap_reset_tolerance = s.lap_reset_tolerance ∧
    (s.update_track_length t).min_speed_kmh = s.min_speed_kmh ∧
    (s.update_track_length t).idle_timeout = s.idle_timeout := by
  unfold update_track_length
  refine ⟨?_, ?_, ?_, ?_, ?_⟩ <;> (dsimp only; (repeat' split) <;> rfl)

lemma update_detect_decomp (s : SessionManager) (t : Telemetry) (ts : Option ℚ) :
    ∃ mid : SessionManager,
      mid.last_progress_time = s.last_progress_time ∧
      mid.last_lap_distance = s.last_lap_distance ∧
      mid.lap_reset_tolerance = s.lap_reset_tolerance ∧
      mid.min_speed_kmh = s.min_speed_kmh ∧
      mid.idle_timeout = s.idle_timeout ∧
      (s.update t ts).1 = (mid.detect_stop_conditions t ts).1 ∧
      (s.update t ts).2.session_stopped = (mid.detect_stop_conditions t ts).2 := by
  unfold update
  dsimp only
  refine ⟨_, ?_, ?_, ?_, ?_, ?_, rfl, rfl⟩
  · rw [(update_track_length_fields _ t).1]; (repeat' split) <;> rfl
  · rw [(update_track_length_fields _ t).2.1]; (repeat' split) <;> rfl
  · rw [(update_track_length_fields _ t).2.2.1]; (repeat' split) <;> rfl
  · rw [(update_track_length_fields _ t).2.2.2.1]; (repeat' split) <;> rfl
  · rw [(update_track_length_fields _ t).2.2.2.2]; (repeat' split) <;> rfl

lemma update_progress_distance (s : SessionManager) (t : Telemetry)
    (τ d prev : ℚ) (ht : t.lap_distance = some d)
    (hs : s.last_lap_distance = some prev) (hlt : prev + 0.1 < d) :
    (s.update t (some τ)).1.last_progress_time = some τ := by
  obtain ⟨mid, _, h2, _, _, _, h6, _⟩ := update_detect_decomp s t (some τ)
  rw [h6]
  exact detect_progress_distance mid t τ d prev ht (h2.trans hs) hlt

lemma update_progress_speed (s : SessionManager) (t : Telemetry)
    (τ v : ℚ) (ht : t.speed = some v) (hv : s.min_speed_kmh ≤ v) :
    (s.update t (some τ)).1.last_progress_time = some τ := by
  obtain ⟨mid, _, _, _, h4, _, h6, _⟩ := update_detect_decomp s t (some τ)
  rw [h6]
  exact detect_progress_speed mid t τ v ht (by rw [h4]; exact hv)

lemma update_no_idle_when_disabled (s : SessionManager) (t : Telemetry)
    (ts : Option ℚ) (hidle : s.idle_timeout ≤ 0) :
    (s.update t ts).2.session_stopped ≠ some StopReason.idle_timeout := by
  obtain ⟨mid, _, _, _, _, h5, _, h7⟩ := update_detect_decomp s t ts
  rw [h7]
  exact detect_no_idle_when_disabled mid t ts (by rw [h5]; exact hidle)

lemma update_reset_fires (s : SessionManager) (t : Telemetry) (ts : Option ℚ)
    (d prev : ℚ) (ht : t.lap_distance = some d)
    (hs : s.last_lap_distance = some prev)
    (hjump : d + s.lap_reset_tolerance < prev) :
    (s.update t ts).2.session_stopped = some StopReason.lap_distance_reset := by
  obtain ⟨mid, _, h2, h3, _, _, _, h7⟩ := update_detect_decomp s t ts
  rw [h7]
  exact detect_reset_fires mid t ts d prev ht (h2.trans hs)
    (by rw [h3]; exact hjump)

lemma update_idle_timeout_eq (s : SessionManager) (t : Telemetry) (ts : Option ℚ) :
    (s.update t ts).1.idle_timeout = s.idle_timeout := by
  obtain ⟨mid, _, _, _, _, h5, h6, _⟩ := update_detect_decomp s t ts
  rw [h6, detect_fields, h5]

end SessionManager

lemma lookup_set (l : List (String × OpponentState)) (n : String)
    (v : OpponentState) : lookupOpponent (setOpponent l n v) n = some v := by
  induction l with
  | nil => simp [setOpponent, lookupOpponent]
  | cons hd tl ih =>
    by_cases h : hd.1 = n
    · simp [setOpponent, lookupOpponent, h]
    · simpa [setOpponent, lookupOpponent, h] using ih

lemma opponent_emission_rule (tr : OpponentTracker) (t : OppSample) (ts : Option ℚ)
    (name : String) (st : OpponentState) (lt : ℚ)
    (hname : t.driver_name = some name) (hne : name ≠ "")
    (htrack : tr.should_track (t.control.getD (-1)) = true)
    (hseen : lookupOpponent tr.opponents name = some st)
    (hinc : st.current_lap < t.lap.getD 0) (hpos : 0 < st.current_lap)
    (hlt : t.last_lap_time = some lt) (hltpos : 0 < lt) :
    ((tr.update_opponent t ts).2.map (fun r => r.lap_time) =
      if ∀ f ∈ st.fastest_lap_time, lt < f then [lt] else []) ∧
    ((lookupOpponent (tr.update_opponent t ts).1.opponents name).map
        (fun o => o.fastest_lap_time) =
      some (if ∀ f ∈ st.fastest_lap_time, lt < f then some lt
            else st.fastest_lap_time)) := by
  unfold OpponentTracker.update_opponent
  simp only [hname, hne, htrack, hseen, hlt, Option.getD_some, if_neg,
    ite_eq_right_iff, Bool.true_eq_false, if_false]
  rw [if_pos ⟨hinc, hpos⟩, if_neg (not_le.mpr hltpos)]
  dsimp only
  cases hf : st.fastest_lap_time with
  | none =>
    simp only [hf, Option.mem_def, Option.some.injEq]
    rw [lookup_set]
    simp
    split <;> rfl
  | some f =>
    by_cases hcmp : lt < f
    · simp only [hf, decide_eq_true_eq, if_pos hcmp]
      rw [lookup_set]
      simp [hcmp]
      split <;> rfl
    · simp only [hf, decide_eq_true_eq, if_neg hcmp]
      rw [lookup_set]
      simp [hcmp]
      split <;> rfl

lemma fastest_lap_scenario :
    (runOpponentSamples mkOpponentTracker
        [(oppSampleA 1 0, some 0), (oppSampleA 2 95.2, some 60),
         (oppSampleA 3 101.0, some 120), (oppSampleA 4 88.4, some 180),
         (oppSampleA 5 140.0, some 240),
         (oppSampleA 6 80.0, some 300)]).2.map (fun r => r.lap_time) =
      [95.2, 88.4, 80.0] := by
  have h1 : OpponentTracker.update_opponent
      mkOpponentTracker
      (oppSampleA 1 0) (some 0) =
      ((⟨[("A", ⟨1, [oppSampleA 1 0], none, some 0⟩)], true, false⟩ : OpponentTracker), []) := by
    norm_num [mkOpponentTracker, oppSampleA, OpponentTracker.update_opponent,
      OpponentTracker.should_track, lookupOpponent, setOpponent,
      Option.some_ne_none, String.reduceEq]; decide
  have h2 : OpponentTracker.update_opponent
      (⟨[("A", ⟨1, [oppSampleA 1 0], none, some 0⟩)], true, false⟩ : OpponentTracker)
      (oppSampleA 2 95.2) (some 60) =
      ((⟨[("A", ⟨2, [oppSampleA 2 95.2], some 95.2, some 60⟩)], true, false⟩ : OpponentTracker), [⟨"A", 1, 95.2, [oppSampleA 1 0], true, none, none, none, none, none, none⟩]) := by
    norm_num [mkOpponentTracker, oppSampleA, OpponentTracker.update_opponent,
      OpponentTracker.should_track, lookupOpponent, setOpponent,
      Option.some_ne_none, String.reduceEq]; decide
  have h3 : OpponentTracker.update_opponent
      (⟨[("A", ⟨2, [oppSampleA 2 95.2], some 95.2, some 60⟩)], true, false⟩ : OpponentTracker)
      (oppSampleA 3 101.0) (some 120) =
      ((⟨[("A", ⟨3, [oppSampleA 3 101.0], some 95.2, some 120⟩)], true, false⟩ : OpponentTracker), []) := by
    norm_num [mkOpponentTracker, oppSampleA, OpponentTracker.update_opponent,
      OpponentTracker.should_track, lookupOpponent, setOpponent,
      Option.some_ne_none, String.reduceEq]; decide
  have h4 : OpponentTracker.update_opponent
      (⟨[("A", ⟨3, [oppSampleA 3 101.0], some 95.2, some 120⟩)], true, false⟩ : OpponentTracker)
      (oppSampleA 4 88.4) (some 180) =
      ((⟨[("A", ⟨4, [oppSampleA 4 88.4], some 88.4, some 180⟩)], true, false⟩ : OpponentTracker), [⟨"A", 3, 88.4, [oppSampleA 3 101.0], true, none, none, none, none, none, none⟩]) := by
    norm_num [mkOpponentTracker, oppSampleA, OpponentTracker.update_opponent,
      OpponentTracker.should_track, lookupOpponent, setOpponent,
      Option.some_ne_none, String.reduceEq]; decide
  have h5 : OpponentTracker.update_opponent
      (⟨[("A", ⟨4, [oppSampleA 4 88.4], some 88.4, some 180⟩)], true, false⟩ : OpponentTracker)
      (oppSampleA 5 140.0) (some 240) =
      ((⟨[("A", ⟨5, [oppSampleA 5 140.0], some 88.4, some 240⟩)], true, false⟩ : OpponentTracker), []) := by
    norm_num [mkOpponentTracker, oppSampleA, OpponentTracker.update_opponent,
      OpponentTracker.should_track, lookupOpponent, setOpponent,
      Option.some_ne_none, String.reduceEq]; decide
  have h6 : OpponentTracker.update_opponent
      (⟨[("A", ⟨5, [oppSampleA 5 140.0], some 88.4, some 240⟩)], true, false⟩ : OpponentTracker)
      (oppSampleA 6 80.0) (some 300) =
      ((⟨[("A", ⟨6, [oppSampleA 6 80.0], some 80.0, some 300⟩)], true, false⟩ : OpponentTracker), [⟨"A", 5, 80.0, [oppSampleA 5 140.0], true, none, none, none, none, none, none⟩]) := by
    norm_num [mkOpponentTracker, oppSampleA, OpponentTracker.update_opponent,
      OpponentTracker.should_track, lookupOpponent, setOpponent,
      Option.some_ne_none, String.reduceEq]; decide
  simp only [runOpponentSamples, List.foldl, h1, h2, h3, h4, h5, h6,
    List.nil_append, List.append_nil, List.singleton_append, List.cons_append,
    List.map]

lemma ite_lt_eq_max (X L : ℚ) : (if X < L then L else X) = max X L := by
  split_ifs with h
  · exact (max_eq_right h.le).symm
  · exact (max_eq_left (not_lt.mp h)).symm

lemma select_formula (s : SessionManager) (r c : ℚ) (hr : 0 ≤ r) :
    s.select_time_value (some r) (some c) =
      max (if r + 0.02 < c then c else max r c) s.last_lap_time := by
  unfold SessionManager.select_time_value
  dsimp only
  rw [if_pos hr]
  dsimp only
  rw [ite_lt_eq_max]
  have hcond : (r < c - 0.02) = (r + 0.02 < c) := by
    apply propext; constructor <;> intro <;> linarith
  simp only [hcond]

lemma select_ge_last (s : SessionManager) (r c : Option ℚ) :
    s.last_lap_time ≤ s.select_time_value r c := by
  unfold SessionManager.select_time_value
  dsimp only
  rw [ite_lt_eq_max]
  exact le_max_right _ _

lemma assign_lap_time_facts (s : SessionManager) (n : NormSample) (ts : Option ℚ) :
    (s.assign_lap_time n ts).1.lap_samples = s.lap_samples ∧
    (s.assign_lap_time n ts).2.lap_time.getD 0 = (s.assign_lap_time n ts).1.last_lap_time ∧
    s.last_lap_time ≤ (s.assign_lap_time n ts).1.last_lap_time := by
  unfold SessionManager.assign_lap_time
  dsimp only
  refine ⟨by (repeat' split) <;> rfl, by (repeat' split) <;> rfl, ?_⟩
  split
  · exact select_ge_last _ _ _
  · exact select_ge_last _ _ _

lemma assign_computed (s : SessionManager) (n : NormSample) (τ t0 : ℚ)
    (h : s.lap_start_timestamp = some t0) :
    (s.assign_lap_time n (some τ)).2.lap_time =
      some (s.select_time_value n.lap_time (some (max 0 (τ - t0)))) := by
  unfold SessionManager.assign_lap_time
  simp [h]

lemma add_sample_monotone (s : SessionManager) (t : Telemetry) (ts : Option ℚ)
    (h : lapTimesMonotone s) : lapTimesMonotone (s.add_sample t ts) := by
  obtain ⟨hchain, hlast⟩ := h
  unfold SessionManager.add_sample
  dsimp only
  set t' := if t.track_length = none ∧ 0 < s.track_length then
      { t with track_length := some s.track_length } else t with ht'
  obtain ⟨hsamples, htime, hge⟩ :=
    assign_lap_time_facts s (SampleNormalizer.normalize t') ts
  set r := s.assign_lap_time (SampleNormalizer.normalize t') ts with hr
  split
  · exact ⟨by rw [hsamples]; exact hchain,
      fun last hl => le_trans (hlast last (by rwa [hsamples] at hl)) hge⟩
  · constructor
    · show List.Chain' _ (r.1.lap_samples ++ [r.2])
      rw [List.chain'_append, hsamples]
      refine ⟨hchain, List.chain'_singleton _, ?_⟩
      intro x hx y hy
      simp only [List.head?_cons, Option.mem_def, Option.some.injEq] at hy
      subst hy
      calc x.lap_time.getD 0 ≤ s.last_lap_time := hlast x hx
        _ ≤ r.1.last_lap_time := hge
        _ = r.2.lap_time.getD 0 := htime.symm
    · intro last hl
      simp only [List.getLast?_concat, Option.mem_def, Option.some.injEq] at hl
      subst hl
      simp [htime]

lemma foldl_add_sample_monotone (inputs : List (Telemetry × Option ℚ))
    (s : SessionManager) (h : lapTimesMonotone s) :
    lapTimesMonotone (inputs.foldl (fun s p => s.add_sample p.1 p.2) s) := by
  induction inputs generalizing s with
  | nil => exact h
  | cons hd tl ih => exact ih _ (add_sample_monotone s hd.1 hd.2 h)

lemma weight_comp (p xn : ℚ) (hp : 0 ≤ p) (hlink : 0 < p → 0 < xn) :
    (if xn = 0 then 1 else 0) ≤ (if p = 0 then (1 : Nat) else 0) := by
  split_ifs with h1 h2
  · exact le_refl 1
  · exact absurd h1 (ne_of_gt (hlink (lt_of_le_of_ne hp (Ne.symm h2))))
  · exact Nat.zero_le 1
  · exact le_refl 0

lemma detectSectorStep_prev (st : DetectState) (x : SectorSample) :
    (detectSectorStep st x).prev1 = x.sector1_time ∧
    (detectSectorStep st x).prev2 = x.sector2_time ∧
    (detectSectorStep st x).prev3 = x.sector3_time := by
  unfold detectSectorStep
  exact ⟨rfl, rfl, rfl⟩

lemma detect_step_key (st : DetectState) (x : SectorSample)
    (hp1 : 0 ≤ st.prev1) (hp2 : 0 ≤ st.prev2) (hp3 : 0 ≤ st.prev3)
    (hl1 : 0 < st.prev1 → 0 < x.sector1_time)
    (hl2 : 0 < st.prev2 → 0 < x.sector2_time)
    (hl3 : 0 < st.prev3 → 0 < x.sector3_time) :
    (detectSectorStep st x).boundaries.length + weight (detectSectorStep st x) ≤
      st.boundaries.length + weight st := by
  have e1 := weight_comp st.prev1 x.sector1_time hp1 hl1
  have e2 := weight_comp st.prev2 x.sector2_time hp2 hl2
  have e3 := weight_comp st.prev3 x.sector3_time hp3 hl3
  unfold detectSectorStep weight
  dsimp only
  by_cases hF1 : st.prev1 = 0 ∧ 0 < x.sector1_time
  · rw [if_pos hF1, List.length_append,
      if_neg (ne_of_gt hF1.2), if_pos hF1.1]
    simp only [List.length_singleton]
    linarith [e2, e3]
  · rw [if_neg hF1]
    by_cases hF2 : st.prev2 = 0 ∧ 0 < x.sector2_time
    · rw [if_pos hF2, List.length_append,
        if_neg (ne_of_gt hF2.2), if_pos hF2.1]
      simp only [List.length_singleton]
      linarith [e1, e3]
    · rw [if_neg hF2]
      by_cases hF3 : st.prev3 = 0 ∧ 0 < x.sector3_time
      · rw [if_pos hF3, List.length_append,
          if_neg (ne_of_gt hF3.2), if_pos hF3.1]
        simp only [List.length_singleton]
        linarith [e1, e2]
      · rw [if_neg hF3]
        linarith [e1, e2, e3]

lemma detect_loop_bound (l : List SectorSample) : ∀ (st : DetectState),
    (∀ s ∈ l, 0 ≤ s.sector1_time ∧ 0 ≤ s.sector2_time ∧ 0 ≤ s.sector3_time) →
    sticky (fun s => s.sector1_time) l → sticky (fun s => s.sector2_time) l →
    sticky (fun s => s.sector3_time) l →
    0 ≤ st.prev1 → 0 ≤ st.prev2 → 0 ≤ st.prev3 →
    (∀ x ∈ l.head?,
      (0 < st.prev1 → 0 < x.sector1_time) ∧
      (0 < st.prev2 → 0 < x.sector2_time) ∧
      (0 < st.prev3 → 0 < x.sector3_time)) →
    (l.foldl detectSectorStep st).boundaries.length ≤
      st.boundaries.length + weight st := by
  induction l with
  | nil => exact fun st _ _ _ _ _ _ _ _ => Nat.le_add_right _ _
  | cons x tl ih =>
    intro st hnn hs1 hs2 hs3 hp1 hp2 hp3 hlink
    have hx := hnn x (List.mem_cons_self x tl)
    obtain ⟨hx1, hx2, hx3⟩ := hlink x rfl
    have step := detect_step_key st x hp1 hp2 hp3 hx1 hx2 hx3
    have tail := ih (detectSectorStep st x)
      (fun s hs => hnn s (List.mem_cons_of_mem _ hs))
      (List.Chain'.tail hs1) (List.Chain'.tail hs2) (List.Chain'.tail hs3)
      (by rw [(detectSectorStep_prev st x).1]; exact hx.1)
      (by rw [(detectSectorStep_prev st x).2.1]; exact hx.2.1)
      (by rw [(detectSectorStep_prev st x).2.2]; exact hx.2.2)
      (by
        intro y hy
        unfold sticky at hs1 hs2 hs3
        rw [List.chain'_cons'] at hs1 hs2 hs3
        refine ⟨?_, ?_, ?_⟩
        · rw [(detectSectorStep_prev st x).1]; exact fun h => hs1.1 y hy h
        · rw [(detectSectorStep_prev st x).2.1]; exact fun h => hs2.1 y hy h
        · rw [(detectSectorStep_prev st x).2.2]; exact fun h => hs3.1 y hy h)
    calc ((x :: tl).foldl detectSectorStep st).boundaries.length
        = (tl.foldl detectSectorStep (detectSectorStep st x)).boundaries.length := rfl
      _ ≤ (detectSectorStep st x).boundaries.length + weight (detectSectorStep st x) := tail
      _ ≤ st.boundaries.length + weight st := step

/-- C1 (amended): update emits lap_completed exactly when the incoming
lap number differs from the stored one and the stored lap number is
positive — so a lap-number decrease also emits lap_completed. -/
theorem C1_lap_completed_iff (s : SessionManager) (t : Telemetry) (ts : Option ℚ) :
    (s.update t ts).2.lap_completed = true ↔
      t.lap.getD 0 ≠ s.current_lap ∧ 0 < s.current_lap := by
  simp [SessionManager.update]

/-- C1 counterexample: with the stored lap number at 3, a sample with
lap number 2 (a strict decrease) still emits lap_completed, refuting
the claim that only strict increases do. -/
theorem C1_counterexample :
    (SessionManager.update
        ((mkSessionManager 5 1 5).update { lap := some 3 } none).1
        { lap := some 2 } none).2.lap_completed = true
    ∧ ¬ ((((mkSessionManager 5 1 5).update { lap := some 3 } none).1).current_lap < 2) := by
  norm_num [SessionManager.update, SessionManager.update_track_length,
    SessionManager.detect_stop_conditions, SessionManager.dscInitProgress,
    SessionManager.dscResetDetected, SessionManager.dscTrackProgress,
    SessionManager.dscSpeedProgress, SessionManager.dscIdleDetected,
    mkSessionManager, Option.some_ne_none]

/-- C2: for a single opponent, update_opponent emits the first valid
completed lap and thereafter emits exactly when the completed-lap time
is strictly below the running minimum of emitted lap times, updating
that minimum on emission; concretely, completed-lap times
[95.2, 101.0, 88.4, 140.0, 80.0] yield the emitted sequence
[95.2, 88.4, 80.0] in that order. -/
theorem C2_fastest_lap_filter :
    ((runOpponentSamples mkOpponentTracker
        [(oppSampleA 1 0, some 0), (oppSampleA 2 95.2, some 60),
         (oppSampleA 3 101.0, some 120), (oppSampleA 4 88.4, some 180),
         (oppSampleA 5 140.0, some 240),
         (oppSampleA 6 80.0, some 300)]).2.map (fun r => r.lap_time) =
      [95.2, 88.4, 80.0]) ∧
    (∀ (tr : OpponentTracker) (t : OppSample) (ts : Option ℚ)
        (name : String) (st : OpponentState) (lt : ℚ),
      t.driver_name = some name → name ≠ "" →
      tr.should_track (t.control.getD (-1)) = true →
      lookupOpponent tr.opponents name = some st →
      st.current_lap < t.lap.getD 0 → 0 < st.current_lap →
      t.last_lap_time = some lt → 0 < lt →
      ((tr.update_opponent t ts).2.map (fun r => r.lap_time) =
        if ∀ f ∈ st.fastest_lap_time, lt < f then [lt] else []) ∧
      ((lookupOpponent (tr.update_opponent t ts).1.opponents name).map
          (fun o => o.fastest_lap_time) =
        some (if ∀ f ∈ st.fastest_lap_time, lt < f then some lt
              else st.fastest_lap_time))) :=
  ⟨fastest_lap_scenario,
   fun tr t ts name st lt h1 h2 h3 h4 h5 h6 h7 h8 =>
     opponent_emission_rule tr t ts name st lt h1 h2 h3 h4 h5 h6 h7 h8⟩

/-- C2 witness: the emission rule applied at a concrete state where the
first valid lap (95.2 s) beats the initial infinite minimum. -/
theorem C2_witness :
    ((mkOpponentTracker.update_opponent (oppSampleA 1 0) (some 0)).1.update_opponent
        (oppSampleA 2 95.2) (some 60)).2.map (fun r => r.lap_time) = [95.2] := by
  have h := (C2_fastest_lap_filter.2 (mkOpponentTracker.update_opponent (oppSampleA 1 0) (some 0)).1
    (oppSampleA 2 95.2) (some 60) "A"
    { current_lap := 1, samples := [oppSampleA 1 0], fastest_lap_time := none,
      lap_start_timestamp := some 0 } 95.2
    rfl (by decide) (by norm_num [OpponentTracker.should_track, oppSampleA,
      mkOpponentTracker, OpponentTracker.update_opponent, lookupOpponent, setOpponent,
      Option.some_ne_none, String.reduceEq])
    (by norm_num [mkOpponentTracker, oppSampleA, OpponentTracker.update_opponent,
      OpponentTracker.should_track, lookupOpponent, setOpponent, Option.some_ne_none,
      String.reduceEq])
    (by norm_num [oppSampleA]) (by norm_num [oppSampleA]) rfl (by norm_num)).1
  simpa using h

/-- C3: the assigned lap time prefers the timestamp-derived duration
when it exceeds the reported time by more than the 0.02 s slack,
otherwise takes the larger of the two, is clamped to never drop below
the previously assigned time, and hence the lap times assigned across
any sequence of add_sample calls within one lap are nondecreasing. -/
theorem C3_lap_time_monotone :
    (∀ (s : SessionManager) (r c : ℚ), 0 ≤ r →
      s.select_time_value (some r) (some c) =
        max (if r + 0.02 < c then c else max r c) s.last_lap_time) ∧
    (∀ (s : SessionManager) (r c : Option ℚ),
      s.last_lap_time ≤ s.select_time_value r c) ∧
    (∀ (s : SessionManager) (n : NormSample) (τ t0 : ℚ),
      s.lap_start_timestamp = some t0 →
      (s.assign_lap_time n (some τ)).2.lap_time =
        some (s.select_time_value n.lap_time (some (max 0 (τ - t0))))) ∧
    (∀ (s : SessionManager) (t : Telemetry) (ts : Option ℚ),
      lapTimesMonotone s → lapTimesMonotone (s.add_sample t ts)) ∧
    (∀ (inputs : List (Telemetry × Option ℚ)) (a b c : ℚ),
      List.Chain' (fun x y => x.lap_time.getD 0 ≤ y.lap_time.getD 0)
        ((inputs.foldl (fun s p => s.add_sample p.1 p.2)
            (mkSessionManager a b c)).lap_samples)) := by
  refine ⟨select_formula, select_ge_last, assign_computed,
    add_sample_monotone, ?_⟩
  intro inputs a b c
  have hbase : lapTimesMonotone (mkSessionManager a b c) := by
    constructor
    · simp [mkSessionManager]
    · simp [mkSessionManager]
  exact (foldl_add_sample_monotone inputs (mkSessionManager a b c) hbase).1

/-- C3 witness: the selection rule evaluated at a concrete state with a
reported time of 1 s and a timestamp-derived duration of 2 s. -/
theorem C3_witness :
    (mkSessionManager 5 1 5).select_time_value (some 1) (some 2) = 2 := by
  have h := C3_lap_time_monotone.1 (mkSessionManager 5 1 5) 1 2 (by norm_num)
  rw [h]
  norm_num [mkSessionManager]

/-- C4 (amended): when every split value on the distance-sorted samples
is nonnegative and no split returns to zero after becoming positive,
the detector loop records at most one boundary per sector (at most 3),
and the full detector returns at most 4 boundaries including the
appended track length. -/
theorem C4_first_crossing_bound (samples : List SectorSample) (L : ℚ)
    (hnn : ∀ s ∈ sortByLapDistance samples,
      0 ≤ s.sector1_time ∧ 0 ≤ s.sector2_time ∧ 0 ≤ s.sector3_time)
    (hs1 : sticky (fun s => s.sector1_time) (sortByLapDistance samples))
    (hs2 : sticky (fun s => s.sector2_time) (sortByLapDistance samples))
    (hs3 : sticky (fun s => s.sector3_time) (sortByLapDistance samples)) :
    ((sortByLapDistance samples).foldl detectSectorStep
        ⟨[], 0, 0, 0⟩).boundaries.length ≤ 3 ∧
    (detect_sector_boundaries samples L).1.length ≤ 4 := by
  have hraw : ((sortByLapDistance samples).foldl detectSectorStep
      ⟨[], 0, 0, 0⟩).boundaries.length ≤ 3 := by
    have h := detect_loop_bound (sortByLapDistance samples) ⟨[], 0, 0, 0⟩
      hnn hs1 hs2 hs3 le_rfl le_rfl le_rfl
      (fun x _ => ⟨fun h => absurd h (lt_irrefl 0),
                   fun h => absurd h (lt_irrefl 0),
                   fun h => absurd h (lt_irrefl 0)⟩)
    simpa [weight] using h
  refine ⟨hraw, ?_⟩
  unfold detect_sector_boundaries
  dsimp only
  split
  · simp
  · split
    · simpa using Nat.add_le_add hraw (le_refl 1)
    · exact le_trans hraw (by norm_num)

/-- C4 counterexample: when the sector-1 split is reported positive,
then zero again, then positive (noise), the edge trigger re-arms and
records two boundaries (100 and 300) for the same sector, refuting
first-crossing-only. -/
theorem C4_counterexample :
    ((sortByLapDistance noisySectorSamples).foldl detectSectorStep
        ⟨[], 0, 0, 0⟩).boundaries = [100, 300] ∧
    detect_sector_boundaries noisySectorSamples 1000 = ([100, 300, 1000], 3) := by
  norm_num [noisySectorSamples, sortByLapDistance, List.mergeSort,
    detectSectorStep, detect_sector_boundaries, Option.some_ne_none,
    List.cons_ne_nil]

/-- C4 witness: the bound instantiated on a clean monotone lap. -/
theorem C4_witness :
    (detect_sector_boundaries
        [⟨100, 0, 0, 0⟩, ⟨1850, 35.2, 0, 0⟩, ⟨3650, 35.2, 68.5, 0⟩]
        5400).1.length ≤ 4 := by
  have hsort : sortByLapDistance
      [⟨100, 0, 0, 0⟩, ⟨1850, 35.2, 0, 0⟩, ⟨3650, 35.2, 68.5, 0⟩] =
      [⟨100, 0, 0, 0⟩, ⟨1850, 35.2, 0, 0⟩, ⟨3650, 35.2, 68.5, 0⟩] := by
    norm_num [sortByLapDistance, List.mergeSort]
  refine (C4_first_crossing_bound _ 5400 ?_ ?_ ?_ ?_).2
  · rw [hsort]
    intro s hs
    fin_cases hs <;> norm_num
  · unfold sticky
    rw [hsort]
    norm_num [List.chain'_cons, List.chain'_singleton]
  · unfold sticky
    rw [hsort]
    norm_num [List.chain'_cons, List.chain'_singleton]
  · unfold sticky
    rw [hsort]
    norm_num [List.chain'_cons, List.chain'_singleton]

/-- C5: with idle_timeout 5 s and min_speed 1, updates at t=0 (speed
50), t=4.9 (speed 0, same distance) and t=5.1 report no stop, no stop,
and idle_timeout respectively; the progress timer resets on a
forward-distance increase greater than 0.1 m or a speed at or above the
minimum; idle detection never fires when the configured timeout is at
most 0 (the constructor floors it at 0 and update preserves it). -/
theorem C5_idle_timeout_timing :
    (let m := mkSessionManager 5 1 5
     let r1 := m.update { lap_distance := some 100, speed := some 50 } (some 0)
     let r2 := r1.1.update { lap_distance := some 100, speed := some 0 } (some (49/10))
     let r3 := r2.1.update { lap_distance := some 100, speed := some 0 } (some (51/10))
     r1.2.session_stopped = none ∧ r2.2.session_stopped = none ∧
       r3.2.session_stopped = some StopReason.idle_timeout)
    ∧ (∀ (s : SessionManager) (t : Telemetry) (τ d prev : ℚ),
        t.lap_distance = some d → s.last_lap_distance = some prev →
        prev + 0.1 < d → (s.update t (some τ)).1.last_progress_time = some τ)
    ∧ (∀ (s : SessionManager) (t : Telemetry) (τ v : ℚ),
        t.speed = some v → s.min_speed_kmh ≤ v →
        (s.update t (some τ)).1.last_progress_time = some τ)
    ∧ (∀ (s : SessionManager) (t : Telemetry) (ts : Option ℚ),
        s.idle_timeout ≤ 0 →
        (s.update t ts).2.session_stopped ≠ some StopReason.idle_timeout)
    ∧ (∀ x y z : ℚ, x ≤ 0 → (mkSessionManager x y z).idle_timeout = 0)
    ∧ (∀ (s : SessionManager) (t : Telemetry) (ts : Option ℚ),
        (s.update t ts).1.idle_timeout = s.idle_timeout) := by
  refine ⟨?_, ?_, ?_, ?_, ?_, ?_⟩
  · norm_num [mkSessionManager, SessionManager.update,
      SessionManager.update_track_length, SessionManager.detect_stop_conditions,
      SessionManager.dscInitProgress, SessionManager.dscResetDetected,
      SessionManager.dscTrackProgress, SessionManager.dscSpeedProgress,
      SessionManager.dscIdleDetected, Option.some_ne_none]
  · exact fun s t τ d prev ht hs hlt =>
      SessionManager.update_progress_distance s t τ d prev ht hs hlt
  · exact fun s t τ v ht hv => SessionManager.update_progress_speed s t τ v ht hv
  · exact fun s t ts h => SessionManager.update_no_idle_when_disabled s t ts h
  · intro x y z hx
    simp [mkSessionManager, max_eq_left hx]
  · exact fun s t ts => SessionManager.update_idle_timeout_eq s t ts

/-- C5 witness: the progress-timer reset applied at a concrete state. -/
theorem C5_witness :
    (((mkSessionManager 5 1 5).update
          { lap_distance := some 100, speed := some 50 } (some 0)).1.update
        { lap_distance := some 101 } (some 7)).1.last_progress_time = some 7 := by
  refine C5_idle_timeout_timing.2.1 _ _ 7 101 100 rfl ?_ (by norm_num)
  norm_num [SessionManager.update, SessionManager.update_track_length,
    SessionManager.detect_stop_conditions, SessionManager.dscInitProgress,
    SessionManager.dscResetDetected, SessionManager.dscTrackProgress,
    SessionManager.dscSpeedProgress, SessionManager.dscIdleDetected,
    mkSessionManager, Option.some_ne_none]

/-- C6: a lap-distance transition from 500 to 10 under tolerance 5
reports lap_distance_reset immediately, 500 to 497 reports no stop, and
whenever the backward-jump condition holds the single reported reason
is lap_distance_reset (the events slot holds at most one reason, and
the teleport check has priority over the idle check). -/
theorem C6_lap_distance_reset :
    (let m := mkSessionManager 5 1 5
     let r1 := m.update { lap_distance := some 500, speed := some 50 } (some 0)
     let r2 := r1.1.update { lap_distance := some 10 } (some (1/10))
     r2.2.session_stopped = some StopReason.lap_distance_reset)
    ∧ (let m := mkSessionManager 5 1 5
       let r1 := m.update { lap_distance := some 500, speed := some 50 } (some 0)
       let r2 := r1.1.update { lap_distance := some 497 } (some (1/10))
       r2.2.session_stopped = none)
    ∧ (∀ (s : SessionManager) (t : Telemetry) (ts : Option ℚ) (d prev : ℚ),
        t.lap_distance = some d → s.last_lap_distance = some prev →
        d + s.lap_reset_tolerance < prev →
        (s.update t ts).2.session_stopped = some StopReason.lap_distance_reset) := by
  refine ⟨?_, ?_, ?_⟩
  · norm_num [mkSessionManager, SessionManager.update,
      SessionManager.update_track_length, SessionManager.detect_stop_conditions,
      SessionManager.dscInitProgress, SessionManager.dscResetDetected,
      SessionManager.dscTrackProgress, SessionManager.dscSpeedProgress,
      SessionManager.dscIdleDetected, Option.some_ne_none]
  · norm_num [mkSessionManager, SessionManager.update,
      SessionManager.update_track_length, SessionManager.detect_stop_conditions,
      SessionManager.dscInitProgress, SessionManager.dscResetDetected,
      SessionManager.dscTrackProgress, SessionManager.dscSpeedProgress,
      SessionManager.dscIdleDetected, Option.some_ne_none]
  · exact fun s t ts d prev ht hs hj =>
      SessionManager.update_reset_fires s t ts d prev ht hs hj

/-- C6 witness: the priority rule applied at a concrete state. -/
theorem C6_witness :
    (((mkSessionManager 5 1 5).update
          { lap_distance := some 500, speed := some 50 } (some 0)).1.update
        { lap_distance := some 10 } (some (1/10))).2.session_stopped =
      some StopReason.lap_distance_reset := by
  refine C6_lap_distance_reset.2.2 _ _ (some (1/10)) 10 500 rfl ?_ ?_
  · norm_num [SessionManager.update, SessionManager.update_track_length,
      SessionManager.detect_stop_conditions, SessionManager.dscInitProgress,
      SessionManager.dscResetDetected, SessionManager.dscTrackProgress,
      SessionManager.dscSpeedProgress, SessionManager.dscIdleDetected,
      mkSessionManager, Option.some_ne_none]
  · have h : (((mkSessionManager 5 1 5).update
        { lap_distance := some 500, speed := some 50 } (some 0)).1).lap_reset_tolerance = 5 := by
      norm_num [SessionManager.update, SessionManager.update_track_length,
        SessionManager.detect_stop_conditions, SessionManager.dscInitProgress,
        SessionManager.dscResetDetected, SessionManager.dscTrackProgress,
        SessionManager.dscSpeedProgress, SessionManager.dscIdleDetected,
        mkSessionManager, Option.some_ne_none]
    rw [h]; norm_num

/-- C7 (amended): for a trackable, already-seen driver with a positive
lap number, the raw sample is appended to the buffer on every call
except the out-lap branch: on a lap increase with non-positive
last-completed lap time the code returns early with an emptied buffer,
discarding the incoming sample. -/
theorem C7_append_except_outlap (tr : OpponentTracker) (t : OppSample) (ts : Option ℚ)
    (name : String) (st : OpponentState)
    (hname : t.driver_name = some name) (hne : name ≠ "")
    (htrack : tr.should_track (t.control.getD (-1)) = true)
    (hseen : lookupOpponent tr.opponents name = some st)
    (hlap : 0 < t.lap.getD 0) :
    (lookupOpponent (tr.update_opponent t ts).1.opponents name).map
        (fun o => o.samples) =
      some (if st.current_lap < t.lap.getD 0 ∧ 0 < st.current_lap then
              (if 0 < t.last_lap_time.getD 0 then [t] else [])
            else st.samples ++ [t]) := by
  unfold OpponentTracker.update_opponent
  simp only [hname, hne, htrack, hseen, Option.getD_some, if_neg,
    ite_eq_right_iff, Bool.true_eq_false, if_false]
  by_cases hcomp : st.current_lap < t.lap.getD 0 ∧ 0 < st.current_lap
  · rw [if_pos hcomp]
    by_cases hout : t.last_lap_time.getD 0 ≤ 0
    · rw [if_pos hout]
      dsimp only
      rw [lookup_set]
      simp [hcomp, not_lt.mpr hout]
    · rw [if_neg hout]
      dsimp only
      rw [lookup_set]
      simp [hcomp, lt_of_not_le hout, if_pos hlap]
  · rw [if_neg hcomp]
    dsimp only
    rw [lookup_set]
    simp [hcomp, if_pos hlap]

/-- C7 counterexample: driver "A" seen on lap 1, then a lap-2 sample
with last_lap_time 0 (out-lap): after the call the buffer is empty, so
the raw sample was not appended although its lap number 2 is positive,
refuting the claim's "including on the out-lap call". -/
theorem C7_counterexample :
    ((((mkOpponentTracker.update_opponent (oppSampleA 1 0) (some 0)).1.update_opponent
          (oppSampleA 2 0) (some 60)).1.opponents |> fun l => lookupOpponent l "A").map
        (fun o => o.samples) = some []) ∧
    (oppSampleA 2 0).lap.getD 0 = 2 := by
  norm_num [mkOpponentTracker, oppSampleA, OpponentTracker.update_opponent,
    OpponentTracker.should_track, lookupOpponent, setOpponent, Option.some_ne_none,
    String.reduceEq]

/-- C7 witness: the append rule applied on a normal lap completion. -/
theorem C7_witness :
    (lookupOpponent
        ((mkOpponentTracker.update_opponent (oppSampleA 1 0) (some 0)).1.update_opponent
            (oppSampleA 2 95.2) (some 60)).1.opponents "A").map
        (fun o => o.samples) = some [oppSampleA 2 95.2] := by
  have h := C7_append_except_outlap (mkOpponentTracker.update_opponent (oppSampleA 1 0) (some 0)).1
    (oppSampleA 2 95.2) (some 60) "A"
    { current_lap := 1, samples := [oppSampleA 1 0], fastest_lap_time := none,
      lap_start_timestamp := some 0 }
    rfl (by decide) (by norm_num [OpponentTracker.should_track, oppSampleA,
      mkOpponentTracker, OpponentTracker.update_opponent, lookupOpponent, setOpponent,
      Option.some_ne_none, String.reduceEq])
    (by norm_num [mkOpponentTracker, oppSampleA, OpponentTracker.update_opponent,
      OpponentTracker.should_track, lookupOpponent, setOpponent, Option.some_ne_none,
      String.reduceEq])
    (by norm_num [oppSampleA])
  simpa [oppSampleA, show ((1:Int) < 2 ∧ (0:Int) < 1) from by norm_num,
    show ((0:ℚ) < 95.2) from by norm_num] using h

/-- C8: with no explicit sector field and a non-empty boundary list,
the resolved sector index lies in [0, len-1]; it is the index of the
first boundary strictly greater than the lap distance when one exists,
else the last sector's index. -/
theorem C8_sector_bound (t : Telemetry) (bs : List ℚ) (d L : ℚ)
    (hsector : t.sector = none) (hbs : t.sector_boundaries = some bs)
    (hne : bs ≠ []) (_hd0 : 0 ≤ d) (_hdL : d < L) :
    0 ≤ SampleNormalizer.resolve_sector t d ∧
    SampleNormalizer.resolve_sector t d ≤ (bs.length : Int) - 1 ∧
    ((∃ b ∈ bs, d < b) →
      ∃ h : (SampleNormalizer.resolve_sector t d).toNat < bs.length,
        d < bs.get ⟨(SampleNormalizer.resolve_sector t d).toNat, h⟩ ∧
          ∀ j (hj : j < bs.length), j < (SampleNormalizer.resolve_sector t d).toNat →
            ¬ d < bs.get ⟨j, hj⟩) ∧
    ((∀ b ∈ bs, ¬ d < b) →
      SampleNormalizer.resolve_sector t d = (bs.length : Int) - 1) := by
  have hlen : 0 < bs.length := List.length_pos.mpr hne
  simp only [SampleNormalizer.resolve_sector, hsector, hbs, ne_eq, hne,
    not_false_iff, if_true]
  by_cases hex : ∃ b ∈ bs, d < b
  · have hex' : ∃ b ∈ bs, (fun b => decide (d < b)) b = true := by
      obtain ⟨b, hb, hdb⟩ := hex
      exact ⟨b, hb, by simpa using hdb⟩
    have hidx : bs.findIdx (fun b => decide (d < b)) < bs.length :=
      List.findIdx_lt_length_of_exists hex'
    refine ⟨?_, ?_, ?_, ?_⟩
    · rw [if_pos hidx]; positivity
    · rw [if_pos hidx]; omega
    · intro _
      simp only [if_pos hidx]
      refine ⟨by simpa using hidx, ?_, ?_⟩
      · have := @List.findIdx_getElem _ (fun b => decide (d < b)) bs (by simpa using hidx)
        simpa using this
      · intro j hj hjlt
        have : (fun b => decide (d < b)) bs[j] = false :=
          List.not_of_lt_findIdx (by simpa using hjlt)
        simpa using this
    · intro hall
      exfalso
      obtain ⟨b, hb, hdb⟩ := hex
      exact hall b hb hdb
  · have hnotlt : ¬ bs.findIdx (fun b => decide (d < b)) < bs.length := by
      rw [List.findIdx_lt_length]
      intro ⟨b, hb, hdb⟩
      exact hex ⟨b, hb, by simpa using hdb⟩
    refine ⟨?_, ?_, ?_, ?_⟩
    · rw [if_neg hnotlt]; omega
    · rw [if_neg hnotlt]
    · intro h; exact absurd h hex
    · intro _; rw [if_neg hnotlt]

/-- C8 witness: the bound instantiated on a three-sector track. -/
theorem C8_witness :
    0 ≤ SampleNormalizer.resolve_sector
        { sector_boundaries := some [1800, 3600, 5400] } 2000 ∧
    SampleNormalizer.resolve_sector
        { sector_boundaries := some [1800, 3600, 5400] } 2000 ≤ 3 - 1 := by
  have h := C8_sector_bound { sector_boundaries := some [1800, 3600, 5400] }
    [1800, 3600, 5400] 2000 5400 rfl rfl (by simp) (by norm_num) (by norm_num)
  exact ⟨h.1, by simpa using h.2.1⟩

/-- C9 (amended): on a tick with the process present, not paused, and
telemetry unavailable, the lap buffer and the rest of the session
manager are unchanged (except an Idle state advances to Detected), the
status marks telemetry unavailable, and nothing is flushed; however the
suspended-logging flag is cleared to False, not left unchanged. -/
theorem C9_unavailable_frame (loop : TelemetryLoop) (t : Telemetry) (now : ℚ)
    (sid : String) (hrun : loop.running = true) (hpause : loop.paused = false) :
    ((loop.run_once true false t now sid).1.session_manager.lap_samples =
        loop.session_manager.lap_samples) ∧
    ((loop.run_once true false t now sid).1.suspend_logging = false) ∧
    ((loop.run_once true false t now sid).1.current_session_id =
        loop.current_session_id) ∧
    ((loop.run_once true false t now sid).1.session_manager =
      { loop.session_manager with
          state := if loop.session_manager.state = SessionState.IDLE
                   then SessionState.DETECTED
                   else loop.session_manager.state }) ∧
    ((loop.run_once true false t now sid).2.1 = some
      { state := loop.session_manager.state
        process_detected := true
        telemetry_available := false
        lap := loop.session_manager.current_lap
        samples_buffered := loop.session_manager.lap_samples.length
        lap_completed := false
        session_stopped := false
        stop_reason := none }) ∧
    ((loop.run_once true false t now sid).2.2 = []) := by
  by_cases hidle : loop.session_manager.state = SessionState.IDLE <;>
    simp [TelemetryLoop.run_once, hrun, hpause, hidle]

/-- C9 counterexample: a suspended loop state hits a
telemetry-unavailable tick and comes out with the suspended-logging
flag cleared, refuting the claim that the flag is unchanged. -/
theorem C9_counterexample :
    suspendedLoop.suspend_logging = true ∧
    (suspendedLoop.run_once true false {} 0 "id").1.suspend_logging = false := by
  constructor
  · rfl
  · simp [suspendedLoop, TelemetryLoop.run_once, mkSessionManager]

/-- C9 witness: the frame property applied at a concrete loop state. -/
theorem C9_witness :
    (suspendedLoop.run_once true false {} 0 "id").2.2 = [] := by
  exact (C9_unavailable_frame suspendedLoop {} 0 "id" rfl rfl).2.2.2.2.2

/-- C10: a single update_opponent call returns at most one completed
lap record, whatever the sample and state. -/
theorem C10_at_most_one_record (tr : OpponentTracker) (t : OppSample) (ts : Option ℚ) :
    (tr.update_opponent t ts).2.length ≤ 1 := by
  unfold OpponentTracker.update_opponent
  split
  · simp
  · split
    · simp
    · split
      · simp
      · dsimp only
        split
        · split
          · simp
          · dsimp only
            split <;> (split <;> simp)
        · simp

